import Mathlib

/-!
Verification of the spork merge-benchmark engine (scripts/benchmark) against
its specification.  The Python modules `containers.py`, `analyze.py`,
`run.py`, `evaluate.py`, `fileutils.py` and `gitutils.py` are shallowly
embedded: Python floats become `ℚ`, Python ints `ℤ`, strings and filesystem
paths `String`, and calls to external processes or to the filesystem become
explicit parameters (environments) of the embedded functions.
-/

/-! ### containers.py -/

/-- `containers.MergeOutcome.CONFLICT`; the outcomes are plain strings in the
source (`MergeOutcome` is a class with three string class attributes). -/
def MergeOutcome.CONFLICT : String := "conflict"

/-- `containers.MergeOutcome.SUCCESS`. -/
def MergeOutcome.SUCCESS : String := "success"

/-- `containers.MergeOutcome.FAIL`. -/
def MergeOutcome.FAIL : String := "fail"

/-- `containers.MergeEvaluation`: a frozen, ordered dataclass.  Field order is
the declaration order of the Python dataclass; `pathlib.Path` fields are
embedded as `String`, `int` as `ℤ`, `float` as `ℚ` and `str` as `String`. -/
structure MergeEvaluation where
  merge_dir : String
  merge_commit : String
  base_blob : String
  left_blob : String
  right_blob : String
  expected_blob : String
  replayed_blob : String
  expected_blob_norm : String
  replayed_blob_norm : String
  merge_cmd : String
  outcome : String
  git_diff_size_norm : ℤ
  git_diff_size : ℤ
  gumtree_diff_size : ℤ
  gumtree_diff_size_norm : ℤ
  num_conflicts : ℤ
  conflict_size : ℤ
  runtime : ℚ
deriving DecidableEq

/-- `containers.MergeResult`: a frozen dataclass holding the outcome of one
replayed file merge; path fields are embedded as `String`. -/
structure MergeResult where
  merge_dir : String
  merge_file : String
  base_file : String
  left_file : String
  right_file : String
  expected_file : String
  merge_cmd : String
  outcome : String
  runtime : ℚ
deriving DecidableEq

/-! ### analyze.py: regression comparison -/

/-- `analyze._significantly_greater_than(compare, reference, min_value=2.0,
tol_fraction=1.2)`.  The Python body is translated verbatim: when both
arguments are below `min_value` it returns `True`.  (Note that this
contradicts the function's own docstring, which requires "at least one is
larger than min_value".)  Division is Lean's total `ℚ` division, so this
definition returns a value where Python raises `ZeroDivisionError`, namely
when `reference = 0` and the first branch is not taken (`compare ≥
min_value`); every theorem below that reaches the division therefore carries
a hypothesis confining it to inputs on which Python does not raise. -/
def significantly_greater_than (compare reference min_value tol_fraction : ℚ) : Bool :=
  if compare < min_value ∧ reference < min_value then true
  else decide (compare / reference > tol_fraction)

/-- `analyze._compare(attr_name, compare_val, ref_val)` restricted to the
numeric attributes (`int`/`float` fields), which are the only ones the use
sites `Evaluations.log_diffs` and `Evaluations._at_least_as_good_as` pass in;
the `"outcome"` string branch of the Python function is unreachable from
those loops (`outcome` is typed `str`) and is therefore not part of this
numeric embedding.  The call passes `tol_fraction=1.2` and leaves
`min_value` at its default `2.0`, exactly as in the source. -/
def analyze_compare (attr_name : String) (compare_val ref_val : ℚ) : Bool :=
  if attr_name = "runtime" then
    ! significantly_greater_than compare_val ref_val 2 (12 / 10)
  else
    decide (compare_val ≤ ref_val)

/-- The numeric (`int` or `float`) fields of `MergeEvaluation`, in dataclass
declaration order; this is the list
`[field.name for field in dataclasses.fields(container) if field.type in (int, float)]`
computed by `analyze.py` for `container = MergeEvaluation`. -/
def numerical_attrs : List String :=
  ["git_diff_size_norm", "git_diff_size", "gumtree_diff_size",
   "gumtree_diff_size_norm", "num_conflicts", "conflict_size", "runtime"]

/-- `getattr(e, attr_name)` for the numeric attributes of `MergeEvaluation`,
with the integer fields coerced into `ℚ` so that sums and means live in one
numeric type (Python mixes `int` and `float` freely). -/
def MergeEvaluation.get_numeric_attr (e : MergeEvaluation) (attr_name : String) : ℚ :=
  if attr_name = "git_diff_size_norm" then (e.git_diff_size_norm : ℚ)
  else if attr_name = "git_diff_size" then (e.git_diff_size : ℚ)
  else if attr_name = "gumtree_diff_size" then (e.gumtree_diff_size : ℚ)
  else if attr_name = "gumtree_diff_size_norm" then (e.gumtree_diff_size_norm : ℚ)
  else if attr_name = "num_conflicts" then (e.num_conflicts : ℚ)
  else if attr_name = "conflict_size" then (e.conflict_size : ℚ)
  else if attr_name = "runtime" then e.runtime
  else 0

/-- Sort key for `MergeEvaluation`: Python's `sorted` on an `order=True`
dataclass compares the tuple of all fields in declaration order, so the key is
the lexicographic product of the eighteen fields. -/
def MergeEvaluation.sort_key (e : MergeEvaluation) :
    String ×ₗ (String ×ₗ (String ×ₗ (String ×ₗ (String ×ₗ (String ×ₗ (String ×ₗ
    (String ×ₗ (String ×ₗ (String ×ₗ (String ×ₗ (ℤ ×ₗ (ℤ ×ₗ (ℤ ×ₗ (ℤ ×ₗ
    (ℤ ×ₗ (ℤ ×ₗ ℚ)))))))))))))))) :=
  toLex (e.merge_dir, toLex (e.merge_commit, toLex (e.base_blob,
    toLex (e.left_blob, toLex (e.right_blob, toLex (e.expected_blob,
    toLex (e.replayed_blob, toLex (e.expected_blob_norm,
    toLex (e.replayed_blob_norm, toLex (e.merge_cmd, toLex (e.outcome,
    toLex (e.git_diff_size_norm, toLex (e.git_diff_size,
    toLex (e.gumtree_diff_size, toLex (e.gumtree_diff_size_norm,
    toLex (e.num_conflicts, toLex (e.conflict_size, e.runtime)))))))))))))))))

/-- The total order Python's `sorted` uses on `MergeEvaluation` records
(`@dataclasses.dataclass(order=True)`): field-tuple lexicographic order. -/
instance : LinearOrder MergeEvaluation :=
  LinearOrder.lift' MergeEvaluation.sort_key (by
    intro a b h
    simp only [MergeEvaluation.sort_key, toLex_inj, Prod.mk.injEq] at h
    cases a
    cases b
    simp_all)

/-- `analyze.Evaluations`: the container field is specialised to
`MergeEvaluation`, the only container the regression-comparison code path
accepts (`at_least_as_good_as` raises for any other container). -/
structure Evaluations where
  data : List MergeEvaluation

/-- `Evaluations.__init__`: stores `tuple(sorted(data))`.  Python's stable
sort is embedded as insertion sort; for the total, antisymmetric dataclass
order every sorting algorithm produces the same output. -/
def Evaluations.init (data : List MergeEvaluation) : Evaluations :=
  ⟨data.insertionSort (· ≤ ·)⟩

/-- `Evaluations.extract(attr_name)` for numeric attributes (the generator is
embedded as the corresponding list). -/
def Evaluations.extract (self : Evaluations) (attr_name : String) : List ℚ :=
  self.data.map (fun e => e.get_numeric_attr attr_name)

/-- `Evaluations.mean(attr_name) = sum(extract(attr_name)) / len(data)`. -/
def Evaluations.mean (self : Evaluations) (attr_name : String) : ℚ :=
  (self.extract attr_name).sum / (self.data.length : ℚ)

/-- `Evaluations.num_equal(attr_name, value)` for numeric attributes. -/
def Evaluations.num_equal (self : Evaluations) (attr_name : String) (value : ℚ) : ℕ :=
  ((self.extract attr_name).filter (fun v => v = value)).length

/-- `Evaluations.num_equal("outcome", value)`: the one use of `num_equal` on
the non-numeric `outcome` attribute (counting `MergeOutcome.FAIL` records in
`_at_least_as_good_as`, where the count only feeds a log message). -/
def Evaluations.num_equal_outcome (self : Evaluations) (value : String) : ℕ :=
  ((self.data.map (fun e => e.outcome)).filter (fun v => v = value)).length

/-- `Evaluations.log_diffs(ref)`: the sequence of per-record, per-attribute
log entries `(merge_dir, attr_name, ref_val, self_val, self_as_good)`; the
Python method only logs, so its observable behaviour is this sequence. -/
def Evaluations.log_diffs (self ref : Evaluations) :
    List (String × String × ℚ × ℚ × Bool) :=
  (self.data.zip ref.data).flatMap (fun p =>
    numerical_attrs.map (fun attr_name =>
      (p.1.merge_dir, attr_name, p.2.get_numeric_attr attr_name,
       p.1.get_numeric_attr attr_name,
       analyze_compare attr_name (p.1.get_numeric_attr attr_name)
         (p.2.get_numeric_attr attr_name))))

/-- `Evaluations.at_least_as_good_as(ref) = all(self._at_least_as_good_as(ref))`:
for every numeric attribute, compare the means with `_compare`.  The
fail-count comparison inside `_at_least_as_good_as` only emits a log message
and does not contribute to the returned generator, and the container/type
guards always pass for `MergeEvaluation` collections. -/
def Evaluations.at_least_as_good_as (self ref : Evaluations) : Bool :=
  numerical_attrs.all (fun attr_name =>
    analyze_compare attr_name (self.mean attr_name) (ref.mean attr_name))

/-! ### run.py: replaying one file merge -/

/-- Observable outcome of the `subprocess.run` call in `run._run_file_merge`:
the call either completes and yields a process object with a return code,
raises `subprocess.TimeoutExpired`, or raises some other exception (both
`except` branches of the source set `proc = None`). -/
inductive ProcEvent where
  | completed (returncode : ℤ)
  | timedOut
  | raised
deriving DecidableEq

/-- `run._run_file_merge`, as a function of the observables: the configured
timeout (`gitutils.MERGE_TIMEOUT`, referenced by `run.py` but left abstract
here as the parameter `timeout`), the measured wall-clock duration of the
call (`time.perf_counter() - start`), what the subprocess call did, and
whether `merge.is_file()` holds after the call.  The result is the returned
`(outcome, runtime)` pair, or `Except.error` for the `AttributeError` the
source raises by evaluating `proc.returncode` when `proc` is `None` but the
merge file exists. -/
def run_file_merge (timeout elapsed : ℚ) (ev : ProcEvent)
    (merge_is_file : Bool) : Except String (String × ℚ) :=
  let timed_out : Bool := ev = ProcEvent.timedOut
  let proc : Option ℤ :=
    match ev with
    | ProcEvent.completed rc => some rc
    | _ => none
  let runtime : ℚ := if ¬ timed_out then elapsed else timeout
  if ¬ merge_is_file then
    Except.ok (MergeOutcome.FAIL, runtime)
  else
    match proc with
    | none => Except.error "AttributeError"
    | some rc =>
      if rc ≠ 0 then Except.ok (MergeOutcome.CONFLICT, runtime)
      else Except.ok (MergeOutcome.SUCCESS, runtime)

/-! ### evaluate.py: conflict extraction and metric computation -/

/-- `gitutils.START_CONFLICT`. -/
def START_CONFLICT : String := "<<<<<<<"

/-- `gitutils.MID_CONFLICT`. -/
def MID_CONFLICT : String := "======="

/-- `gitutils.END_CONFLICT`. -/
def END_CONFLICT : String := ">>>>>>>"

/-- Python `s.startswith(m)`, by code points (Lean's builtin
`String.startsWith` is byte-position based and does not reduce in the
kernel, so the comparison is spelled out on the character lists). -/
def py_startswith (s m : String) : Bool := m.data.isPrefixOf s.data

/-- `evaluate.MergeConflict`: the lines of the two sides of one conflict
hunk, each line carrying its trailing newline exactly as produced by
`file.readlines()`. -/
structure MergeConflict where
  left : List String
  right : List String
deriving DecidableEq

/-- Python `''.join(lines)`. -/
def join_lines (lines : List String) : String :=
  lines.foldr (fun a b => a ++ b) ""

/-- `evaluate.MergeConflict.pretty_print_conflict`:
`f"{START_CONFLICT}\n{''.join(left)}{MID_CONFLICT}\n{''.join(right)}{END_CONFLICT}"`. -/
def MergeConflict.pretty_print_conflict (self : MergeConflict) : String :=
  START_CONFLICT ++ "\n" ++ join_lines self.left ++ MID_CONFLICT ++ "\n"
    ++ join_lines self.right ++ END_CONFLICT

/-- `evaluate.MergeConflict.num_lines`: `len(left) + len(right)`. -/
def MergeConflict.num_lines (self : MergeConflict) : ℕ :=
  self.left.length + self.right.length

/-- `itertools.takewhile(lambda line: not line.startswith(marker), lines)` on
a shared iterator: returns the taken lines and the iterator's remainder.
`takewhile` consumes (and discards) the first failing element, which is how
`extract_conflicts` skips over the `=======` and `>>>>>>>` marker lines. -/
def takewhile_consume (stops : String → Bool) : List String → List String × List String
  | [] => ([], [])
  | x :: xs =>
    if stops x then ([], xs)
    else
      let r := takewhile_consume stops xs
      (x :: r.1, r.2)

theorem takewhile_consume_snd_length_le (stops : String → Bool) (l : List String) :
    (takewhile_consume stops l).2.length ≤ l.length := by
  induction l with
  | nil => simp [takewhile_consume]
  | cons x xs ih =>
    simp only [takewhile_consume]
    split
    · simp
    · simpa using Nat.le_succ_of_le ih

/-- `evaluate.extract_conflicts`: scan the lines of the replayed file; each
line starting with `<<<<<<<` opens a hunk whose left side runs to the first
line starting with `=======` and whose right side runs to the first line
starting with `>>>>>>>` (both marker lines being consumed and discarded). -/
def extract_conflicts (lines : List String) : List MergeConflict :=
  match lines with
  | [] => []
  | line :: rest =>
    if py_startswith line START_CONFLICT then
      let lr := takewhile_consume (fun l => py_startswith l MID_CONFLICT) rest
      let rr := takewhile_consume (fun l => py_startswith l END_CONFLICT) lr.2
      ⟨lr.1, rr.1⟩ :: extract_conflicts rr.2
    else
      extract_conflicts rest
termination_by lines.length
decreasing_by
  · simp_wf
    have h1 := takewhile_consume_snd_length_le
      (fun l => py_startswith l MID_CONFLICT) xs
    have h2 := takewhile_consume_snd_length_le (fun l => py_startswith l END_CONFLICT)
      (takewhile_consume (fun l => py_startswith l MID_CONFLICT) xs).2
    omega
  · simp

/-- The external and filesystem-dependent operations `evaluate.evaluation_result`
calls, abstracted as pure functions of the file paths involved:
`gitutils.hash_object` (a `git hash-object` subprocess),
`fileutils.copy_normalized` (writes a normalised copy next to the file and
returns its path), reading the lines of a file (`extract_conflicts` opens the
path), `evaluate.git_diff_edit_script_size` (a `git diff --numstat`
subprocess; the `Bool` is its `normalized` flag),
`evaluate.gumtree_edit_script` (a `gumtree diff` subprocess yielding the
non-`Match` edit-script lines), `pathlib.Path.relative_to`, and
`fileutils.extract_commit_sha` (first parent's name of the merge dir). -/
structure EvalEnv where
  hash_object : String → String
  copy_normalized : String → String
  read_lines : String → List String
  git_diff_edit_script_size : String → String → Bool → ℤ
  gumtree_edit_script : String → String → List String
  relative_to : String → String → String
  extract_commit_sha : String → String

/-- `evaluate.evaluation_result(merge_result, base_merge_dir)`, translated
statement by statement; the sentinel initialisations (`-1` for the four diff
sizes, `0` for `conflict_size` and `num_conflicts`, `""` for the replayed
blob hashes) are overwritten exactly on the branches the source overwrites
them: the replayed hashes whenever the outcome is not `fail`, and the
conflict and diff metrics only when the outcome is `success`. -/
def evaluation_result (env : EvalEnv) (merge_result : MergeResult)
    (base_merge_dir : String) : MergeEvaluation :=
  let expected := merge_result.expected_file
  let expected_blob := env.hash_object expected
  let expected_norm := env.copy_normalized expected
  let expected_blob_norm := env.hash_object expected_norm
  let replayed := merge_result.merge_file
  let vals : String × String × ℤ × ℤ × ℤ × ℤ × ℤ × ℤ :=
    if merge_result.outcome ≠ MergeOutcome.FAIL then
      let replayed_norm := env.copy_normalized replayed
      let replayed_blob := env.hash_object replayed
      let replayed_blob_norm := env.hash_object replayed_norm
      if merge_result.outcome = MergeOutcome.SUCCESS then
        let conflicts := extract_conflicts (env.read_lines replayed)
        (replayed_blob, replayed_blob_norm,
         ((conflicts.map MergeConflict.num_lines).sum : ℤ),
         (conflicts.length : ℤ),
         env.git_diff_edit_script_size expected replayed false,
         env.git_diff_edit_script_size expected_norm replayed_norm true,
         ((env.gumtree_edit_script expected replayed).length : ℤ),
         ((env.gumtree_edit_script expected_norm replayed_norm).length : ℤ))
      else
        (replayed_blob, replayed_blob_norm, 0, 0, -1, -1, -1, -1)
    else
      ("", "", 0, 0, -1, -1, -1, -1)
  let merge_dir := env.relative_to merge_result.merge_dir base_merge_dir
  let merge_commit := env.extract_commit_sha merge_dir
  { merge_dir := merge_dir
    merge_cmd := merge_result.merge_cmd
    outcome := merge_result.outcome
    gumtree_diff_size := vals.2.2.2.2.2.2.1
    gumtree_diff_size_norm := vals.2.2.2.2.2.2.2
    git_diff_size := vals.2.2.2.2.1
    git_diff_size_norm := vals.2.2.2.2.2.1
    conflict_size := vals.2.2.1
    num_conflicts := vals.2.2.2.1
    runtime := merge_result.runtime
    merge_commit := merge_commit
    base_blob := env.hash_object merge_result.base_file
    left_blob := env.hash_object merge_result.left_file
    right_blob := env.hash_object merge_result.right_file
    expected_blob := expected_blob
    replayed_blob := vals.1
    expected_blob_norm := expected_blob_norm
    replayed_blob_norm := vals.2.1 }

/-! ### fileutils.py: materialising merge directories -/

/-- A git blob as `create_merge_dirs` consumes it: its basename
(`blob.name`), its hash, and its raw bytes (`blob.data_stream[-1].read()`),
the bytes embedded as a `String`. -/
structure Blob where
  name : String
  hexsha : String
  data : String
deriving DecidableEq

/-- A `containers.FileMerge` as far as `fileutils.create_merge_dirs` reads
it: the four blobs (`base` optional) and the merge scenario's expected/merge
commit hash (`file_merge.from_merge_scenario.expected.hexsha`). -/
structure FileMerge where
  expected : Blob
  base : Option Blob
  left : Blob
  right : Blob
  merge_commit_hexsha : String
deriving DecidableEq

/-- The directory `create_merge_dirs` chooses for one file merge:
`merge_dir_base / merge_commit.hexsha / result_blob.name`. -/
def merge_dir_path (merge_dir_base : String) (file_merge : FileMerge) : String :=
  merge_dir_base ++ "/" ++ file_merge.merge_commit_hexsha ++ "/" ++ file_merge.expected.name

/-- The four files `create_merge_dirs` writes into one merge directory, in
source order (`Expected.java`, `Left.java`, `Right.java`, `Base.java`), each
with the raw blob bytes; a missing base blob is written as an explicit empty
`Base.java` (the source also logs a warning in that branch). -/
def merge_dir_files (merge_dir_base : String) (file_merge : FileMerge) :
    List (String × String) :=
  let merge_dir := merge_dir_path merge_dir_base file_merge
  [(merge_dir ++ "/" ++ "Expected.java", file_merge.expected.data),
   (merge_dir ++ "/" ++ "Left.java", file_merge.left.data),
   (merge_dir ++ "/" ++ "Right.java", file_merge.right.data),
   (merge_dir ++ "/" ++ "Base.java",
    match file_merge.base with
    | some b => b.data
    | none => "")]

/-- `fileutils.create_merge_dirs(merge_dir_base, file_merges)` on an
initially clean `merge_dir_base`: `merge_dir.mkdir(parents=True)` is called
without `exist_ok`, so it raises `FileExistsError` (`Except.error ()`) as
soon as a directory path repeats; otherwise the call returns the list of
merge directories, and the embedding also returns the list of
`(path, bytes)` file writes.  `created` accumulates the directories made so
far within the call. -/
def create_merge_dirs_from (merge_dir_base : String) (created : List String) :
    List FileMerge → Except Unit (List String × List (String × String))
  | [] => Except.ok ([], [])
  | file_merge :: rest =>
    let merge_dir := merge_dir_path merge_dir_base file_merge
    if merge_dir ∈ created then Except.error ()
    else
      match create_merge_dirs_from merge_dir_base (merge_dir :: created) rest with
      | Except.error e => Except.error e
      | Except.ok (dirs, files) =>
        Except.ok (merge_dir :: dirs, merge_dir_files merge_dir_base file_merge ++ files)

/-- `fileutils.create_merge_dirs` proper: start with no directories created. -/
def create_merge_dirs (merge_dir_base : String) (file_merges : List FileMerge) :
    Except Unit (List String × List (String × String)) :=
  create_merge_dirs_from merge_dir_base [] file_merges

/-! ### gitutils.py: trial merges with guaranteed restoration -/

/-- The repository state `merge_no_commit`/`saved_git_head` manipulate:
`HEAD`, the index, the tracked working-tree files and the untracked files
(each file store a list of `(path, content)` pairs). -/
structure RepoState where
  head : String
  index : List (String × String)
  worktree : List (String × String)
  untracked : List (String × String)
deriving DecidableEq

/-- The committed content of each commit, i.e. the repository's object
store: commit hash to `(path, content)` pairs. -/
def GitStore : Type := String → List (String × String)

/-- `gitutils.checkout_clean(repo, commitish)`: `git clean -xfd` deletes all
untracked files, then `git checkout commitish --force` moves `HEAD` and
overwrites the index and tracked working tree with the commit's content. -/
def checkout_clean (store : GitStore) (_s : RepoState) (commitish : String) : RepoState :=
  { head := commitish, index := store commitish,
    worktree := store commitish, untracked := [] }

/-- `repo.git.reset("--merge")` in `merge_no_commit`'s `finally` block,
idealised: abort any in-progress merge by resetting the index and tracked
working tree to `HEAD`'s content (untracked files are untouched). -/
def reset_merge (store : GitStore) (s : RepoState) : RepoState :=
  { s with index := store s.head, worktree := store s.head }

/-- A repository that is clean at commit `head`: the index and working tree
equal the commit's content and there are no untracked files. -/
def clean_state (store : GitStore) (head : String) : RepoState :=
  { head := head, index := store head, worktree := store head, untracked := [] }

/-- What `repo.git.merge(right_sha, "--no-commit")` did: returned output
normally, raised `git.GitCommandError` (caught by `merge_no_commit`, which
then yields `success = False` with `str(exc)` as output), or raised any
other exception (logged and re-raised). -/
inductive GitMergeEvent where
  | ok (output : String)
  | gitCommandError (msg : String)
  | raised (msg : String)

/-- `gitutils.merge_no_commit(repo, left_sha, right_sha, driver_config)`
together with the caller's `with` block, embedded as one function.
`merge_b` is the effect of the `git merge` subprocess (its event and the
repository state it leaves behind), and `body` is the code inside the
caller's `with` block, given the yielded `(success, output)` pair and the
repository state; the body returns `some e` when it raises exception `e`.
Exit protocol of the source: the inner `saved_git_head` context manager
swallows nothing — it restores with `checkout_clean(repo, saved_head)` in a
`finally` and only then re-raises — and the outer `try/finally` of
`merge_no_commit` then runs `repo.git.reset("--merge")` (the merge-driver
configuration file it also clears lives under `.git/info` and is not part of
this state).  The returned pair is the propagated result (`Except.error e`
when an exception escapes) and the final repository state. -/
def merge_no_commit (store : GitStore) (left_sha : String)
    (merge_b : RepoState → GitMergeEvent × RepoState)
    (body : Bool → String → RepoState → Option String × RepoState)
    (s₀ : RepoState) : Except String Bool × RepoState :=
  let saved_head := s₀.head
  let s₁ := checkout_clean store s₀ left_sha
  match merge_b s₁ with
  | (GitMergeEvent.raised msg, s₂) =>
    (Except.error msg, reset_merge store (checkout_clean store s₂ saved_head))
  | (GitMergeEvent.ok output, s₂) =>
    match body true output s₂ with
    | (none, s₃) =>
      (Except.ok true, reset_merge store (checkout_clean store s₃ saved_head))
    | (some e, s₃) =>
      (Except.error e, reset_merge store (checkout_clean store s₃ saved_head))
  | (GitMergeEvent.gitCommandError msg, s₂) =>
    match body false msg s₂ with
    | (none, s₃) =>
      (Except.ok false, reset_merge store (checkout_clean store s₃ saved_head))
    | (some e, s₃) =>
      (Except.error e, reset_merge store (checkout_clean store s₃ saved_head))

/-! ### Concrete instances used by the claim theorems -/

/-- A `MergeEvaluation` record with runtime mean 1.0 (all other numeric
metrics 0), the failing input for the reflexivity claim. -/
def c1_eval : MergeEvaluation :=
  { merge_dir := "d", merge_commit := "", base_blob := "", left_blob := "",
    right_blob := "", expected_blob := "", replayed_blob := "",
    expected_blob_norm := "", replayed_blob_norm := "", merge_cmd := "spork",
    outcome := MergeOutcome.SUCCESS, git_diff_size_norm := 0, git_diff_size := 0,
    gumtree_diff_size := 0, gumtree_diff_size_norm := 0, num_conflicts := 0,
    conflict_size := 0, runtime := 1 }

/-- An evaluation environment with simple concrete externals: hashes are
`"h:" ++ path`, the normalised copy of `p` is `p ++ "_normalized.java"`, the
replayed file of the conflict scenarios holds one conflict hunk with labelled
markers, diffs are empty. -/
def conflict_env : EvalEnv :=
  { hash_object := fun p => "h:" ++ p
    copy_normalized := fun p => p ++ "_normalized.java"
    read_lines := fun _ => ["<<<<<<< HEAD\n", "x\n", "=======\n", "y\n", ">>>>>>> right\n"]
    git_diff_edit_script_size := fun _ _ _ => 0
    gumtree_edit_script := fun _ _ => []
    relative_to := fun d _ => d
    extract_commit_sha := fun _ => "0abc" }

/-- A failed merge result (the tool produced no output file). -/
def c4_mr : MergeResult :=
  { merge_dir := "base/0abc/Foo.java", merge_file := "base/0abc/Foo.java/spork.java"
    base_file := "base/0abc/Foo.java/Base.java"
    left_file := "base/0abc/Foo.java/Left.java"
    right_file := "base/0abc/Foo.java/Right.java"
    expected_file := "base/0abc/Foo.java/Expected.java"
    merge_cmd := "spork", outcome := MergeOutcome.FAIL, runtime := 3 }

/-- A merge result with outcome `conflict` whose replayed file (as read by
`conflict_env`) contains exactly one conflict hunk. -/
def c5_mr : MergeResult :=
  { merge_dir := "base/0abc/Foo.java", merge_file := "base/0abc/Foo.java/spork.java"
    base_file := "base/0abc/Foo.java/Base.java"
    left_file := "base/0abc/Foo.java/Left.java"
    right_file := "base/0abc/Foo.java/Right.java"
    expected_file := "base/0abc/Foo.java/Expected.java"
    merge_cmd := "spork", outcome := MergeOutcome.CONFLICT, runtime := 3 }

/-- The same merge replay as `c5_mr` but with outcome `success` (a tool may
exit zero while still emitting conflict markers). -/
def c5_success_mr : MergeResult :=
  { merge_dir := "base/0abc/Foo.java", merge_file := "base/0abc/Foo.java/spork.java"
    base_file := "base/0abc/Foo.java/Base.java"
    left_file := "base/0abc/Foo.java/Left.java"
    right_file := "base/0abc/Foo.java/Right.java"
    expected_file := "base/0abc/Foo.java/Expected.java"
    merge_cmd := "spork", outcome := MergeOutcome.SUCCESS, runtime := 3 }

/-- A replayed file consisting of exactly one conflict region whose markers
carry the usual git labels (`HEAD` / branch name). -/
def c8_file : List String :=
  ["<<<<<<< HEAD\n", "x\n", "=======\n", "y\n", ">>>>>>> right\n"]

/-- The conflict extracted from `c8_file`. -/
def c8_conflict : MergeConflict := ⟨["x\n"], ["y\n"]⟩

/-- Two file merges of the same merge scenario whose expected files share
the basename `Foo.java` (different directories in the repository, hence
different blobs). -/
def c9_fm1 : FileMerge :=
  { expected := ⟨"Foo.java", "e1", "class A {}"⟩
    base := some ⟨"Foo.java", "b1", "class B {}"⟩
    left := ⟨"Foo.java", "l1", "class L {}"⟩
    right := ⟨"Foo.java", "r1", "class R {}"⟩
    merge_commit_hexsha := "0abc" }

/-- Second file merge of the same scenario with the same basename. -/
def c9_fm2 : FileMerge :=
  { expected := ⟨"Foo.java", "e2", "class A2 {}"⟩
    base := some ⟨"Foo.java", "b2", "class B2 {}"⟩
    left := ⟨"Foo.java", "l2", "class L2 {}"⟩
    right := ⟨"Foo.java", "r2", "class R2 {}"⟩
    merge_commit_hexsha := "0abc" }

/-- A file merge of the same scenario with a different basename, and with no
base blob (both sides added the file). -/
def c9_fm3 : FileMerge :=
  { expected := ⟨"Bar.java", "e3", "class C {}"⟩
    base := none
    left := ⟨"Bar.java", "l3", "class L3 {}"⟩
    right := ⟨"Bar.java", "r3", "class R3 {}"⟩
    merge_commit_hexsha := "0abc" }

/-- A tiny object store: every commit holds one tracked file. -/
def c7_store : GitStore := fun _ => [("f.txt", "v")]

/-- A clean repository state at commit `"h"` for `c7_store`. -/
def c7_clean_s0 : RepoState :=
  { head := "h", index := [("f.txt", "v")], worktree := [("f.txt", "v")],
    untracked := [] }

/-- A repository state at commit `"h"` that carries one pre-existing
untracked file. -/
def c7_dirty_s0 : RepoState :=
  { head := "h", index := [("f.txt", "v")], worktree := [("f.txt", "v")],
    untracked := [("junk.txt", "x")] }

/-- A trial merge that succeeds and leaves conflict-free merge droppings in
the working tree and index. -/
def c7_merge_b : RepoState → GitMergeEvent × RepoState :=
  fun s => (GitMergeEvent.ok "Auto-merging f.txt",
    { s with worktree := [("f.txt", "merged")], index := [("f.txt", "merged")] })

/-- A caller block that inspects the merge result and returns normally. -/
def c7_body : Bool → String → RepoState → Option String × RepoState :=
  fun _ _ s => (none, s)

/-- A caller block that raises. -/
def c7_raising_body : Bool → String → RepoState → Option String × RepoState :=
  fun _ _ s => (some "RuntimeError", s)

/-- Two distinct `MergeEvaluation` records, used to exercise order
independence of `Evaluations`. -/
def c10_e1 : MergeEvaluation :=
  { merge_dir := "0abc/Foo.java", merge_commit := "0abc", base_blob := "b1",
    left_blob := "l1", right_blob := "r1", expected_blob := "e1",
    replayed_blob := "p1", expected_blob_norm := "en1", replayed_blob_norm := "pn1",
    merge_cmd := "spork", outcome := MergeOutcome.SUCCESS, git_diff_size_norm := 1,
    git_diff_size := 2, gumtree_diff_size := 3, gumtree_diff_size_norm := 4,
    num_conflicts := 0, conflict_size := 0, runtime := 5 / 2 }

/-- Second record, sorting after `c10_e1` (larger `merge_dir`). -/
def c10_e2 : MergeEvaluation :=
  { merge_dir := "1def/Bar.java", merge_commit := "1def", base_blob := "b2",
    left_blob := "l2", right_blob := "r2", expected_blob := "e2",
    replayed_blob := "p2", expected_blob_norm := "en2", replayed_blob_norm := "pn2",
    merge_cmd := "spork", outcome := MergeOutcome.CONFLICT, git_diff_size_norm := 6,
    git_diff_size := 7, gumtree_diff_size := 8, gumtree_diff_size_norm := 9,
    num_conflicts := 2, conflict_size := 11, runtime := 7 / 2 }

/-! ### General lemmas -/

theorem takewhile_consume_append (stops : String → Bool) (pre : List String)
    (stop : String) (rest : List String) (hpre : ∀ x ∈ pre, stops x = false)
    (hstop : stops stop = true) :
    takewhile_consume stops (pre ++ stop :: rest) = (pre, rest) := by
  induction pre with
  | nil => simp [takewhile_consume, hstop]
  | cons x xs ih =>
    have hx : stops x = false := hpre x (by simp)
    have ih2 := ih (fun y hy => hpre y (by simp [hy]))
    simp [takewhile_consume, hx, ih2]

theorem extract_conflicts_nil : extract_conflicts [] = [] := by
  rw [extract_conflicts]

/-- One structured conflict region at the head of the line list is turned
into exactly one `MergeConflict` holding its two sides, and scanning resumes
after the closing marker line. -/
theorem extract_conflicts_cons_conflict (start mid fin : String)
    (left right post : List String)
    (hstart : py_startswith start START_CONFLICT = true)
    (hmid : py_startswith mid MID_CONFLICT = true)
    (hfin : py_startswith fin END_CONFLICT = true)
    (hleft : ∀ l ∈ left, py_startswith l MID_CONFLICT = false)
    (hright : ∀ l ∈ right, py_startswith l END_CONFLICT = false) :
    extract_conflicts (start :: (left ++ mid :: (right ++ fin :: post)))
      = ⟨left, right⟩ :: extract_conflicts post := by
  rw [extract_conflicts]
  simp only [hstart, if_pos]
  rw [takewhile_consume_append _ left mid _ hleft hmid]
  rw [takewhile_consume_append _ right fin post hright hfin]

theorem join_lines_nil : join_lines [] = "" := rfl

theorem join_lines_cons (x : String) (l : List String) :
    join_lines (x :: l) = x ++ join_lines l := rfl

theorem join_lines_append (a b : List String) :
    join_lines (a ++ b) = join_lines a ++ join_lines b := by
  induction a with
  | nil => simp [join_lines_nil, join_lines_cons, String.empty_append]
  | cons x xs ih =>
    simp only [List.cons_append, join_lines_cons, ih, String.append_assoc]

theorem create_merge_dirs_from_ok (merge_dir_base : String) :
    ∀ (file_merges : List FileMerge) (created : List String),
      (∀ fm ∈ file_merges, merge_dir_path merge_dir_base fm ∉ created) →
      (file_merges.map (merge_dir_path merge_dir_base)).Nodup →
      create_merge_dirs_from merge_dir_base created file_merges
        = Except.ok (file_merges.map (merge_dir_path merge_dir_base),
            file_merges.flatMap (merge_dir_files merge_dir_base)) := by
  intro file_merges
  induction file_merges with
  | nil => intro created _ _; rfl
  | cons fm rest ih =>
    intro created h1 h2
    have hfm : merge_dir_path merge_dir_base fm ∉ created := h1 fm (by simp)
    have hrest : ∀ f ∈ rest,
        merge_dir_path merge_dir_base f ∉ merge_dir_path merge_dir_base fm :: created := by
      intro f hf
      simp only [List.mem_cons, not_or]
      refine ⟨?_, h1 f (by simp [hf])⟩
      intro hcontra
      have : merge_dir_path merge_dir_base fm ∈ rest.map (merge_dir_path merge_dir_base) :=
        List.mem_map.mpr ⟨f, hf, hcontra⟩
      exact (List.nodup_cons.mp h2).1 this
    have ih2 := ih (merge_dir_path merge_dir_base fm :: created) hrest
      (List.nodup_cons.mp h2).2
    simp [create_merge_dirs_from, hfm, ih2]

theorem Evaluations.init_singleton (e : MergeEvaluation) :
    (Evaluations.init [e]).data = [e] := by
  simp [Evaluations.init, List.insertionSort, List.orderedInsert]

theorem Evaluations.mean_singleton (e : MergeEvaluation) (attr_name : String) :
    (Evaluations.init [e]).mean attr_name = e.get_numeric_attr attr_name := by
  simp [Evaluations.mean, Evaluations.extract, Evaluations.init_singleton]

/-! ### Claim C4 -/

/-- C4 counterexample: for a `fail` outcome, `num_conflicts` and
`conflict_size` are `0`, not the sentinel `-1` — the source initialises them
to `0` and the fail path never overwrites them (only the four diff sizes are
initialised to `-1`). -/
theorem c4_fail_conflict_metrics_are_zero :
    c4_mr.outcome = MergeOutcome.FAIL
    ∧ (evaluation_result conflict_env c4_mr "base").num_conflicts = 0
    ∧ (evaluation_result conflict_env c4_mr "base").num_conflicts ≠ -1
    ∧ (evaluation_result conflict_env c4_mr "base").conflict_size = 0
    ∧ (evaluation_result conflict_env c4_mr "base").conflict_size ≠ -1 :=
  ⟨rfl, rfl, by decide, rfl, by decide⟩

/-- C4 (amended): for every `MergeResult` with outcome `fail`, the four diff
metrics are the sentinel `-1`, while `num_conflicts` and `conflict_size` are
`0` (their initial values, never overwritten on this path) and the replayed
blob hashes are empty strings; all identity and hash fields are still
populated from the merge result and the hashing environment. -/
theorem c4_fail_metrics (env : EvalEnv) (merge_result : MergeResult)
    (base_merge_dir : String) (h : merge_result.outcome = MergeOutcome.FAIL) :
    (evaluation_result env merge_result base_merge_dir).git_diff_size = -1
    ∧ (evaluation_result env merge_result base_merge_dir).git_diff_size_norm = -1
    ∧ (evaluation_result env merge_result base_merge_dir).gumtree_diff_size = -1
    ∧ (evaluation_result env merge_result base_merge_dir).gumtree_diff_size_norm = -1
    ∧ (evaluation_result env merge_result base_merge_dir).num_conflicts = 0
    ∧ (evaluation_result env merge_result base_merge_dir).conflict_size = 0
    ∧ (evaluation_result env merge_result base_merge_dir).replayed_blob = ""
    ∧ (evaluation_result env merge_result base_merge_dir).replayed_blob_norm = ""
    ∧ (evaluation_result env merge_result base_merge_dir).merge_dir
        = env.relative_to merge_result.merge_dir base_merge_dir
    ∧ (evaluation_result env merge_result base_merge_dir).merge_commit
        = env.extract_commit_sha (env.relative_to merge_result.merge_dir base_merge_dir)
    ∧ (evaluation_result env merge_result base_merge_dir).base_blob
        = env.hash_object merge_result.base_file
    ∧ (evaluation_result env merge_result base_merge_dir).left_blob
        = env.hash_object merge_result.left_file
    ∧ (evaluation_result env merge_result base_merge_dir).right_blob
        = env.hash_object merge_result.right_file
    ∧ (evaluation_result env merge_result base_merge_dir).expected_blob
        = env.hash_object merge_result.expected_file
    ∧ (evaluation_result env merge_result base_merge_dir).expected_blob_norm
        = env.hash_object (env.copy_normalized merge_result.expected_file)
    ∧ (evaluation_result env merge_result base_merge_dir).merge_cmd
        = merge_result.merge_cmd
    ∧ (evaluation_result env merge_result base_merge_dir).outcome
        = merge_result.outcome
    ∧ (evaluation_result env merge_result base_merge_dir).runtime
        = merge_result.runtime := by
  simp [evaluation_result, h]

/-- C4 witness: the amended fail-metrics theorem applied to the concrete
failed merge result `c4_mr`. -/
theorem c4_fail_metrics_witness :
    (evaluation_result conflict_env c4_mr "base").git_diff_size = -1
    ∧ (evaluation_result conflict_env c4_mr "base").git_diff_size_norm = -1
    ∧ (evaluation_result conflict_env c4_mr "base").gumtree_diff_size = -1
    ∧ (evaluation_result conflict_env c4_mr "base").gumtree_diff_size_norm = -1
    ∧ (evaluation_result conflict_env c4_mr "base").num_conflicts = 0
    ∧ (evaluation_result conflict_env c4_mr "base").conflict_size = 0
    ∧ (evaluation_result conflict_env c4_mr "base").replayed_blob = ""
    ∧ (evaluation_result conflict_env c4_mr "base").replayed_blob_norm = ""
    ∧ (evaluation_result conflict_env c4_mr "base").merge_dir
        = conflict_env.relative_to c4_mr.merge_dir "base"
    ∧ (evaluation_result conflict_env c4_mr "base").merge_commit
        = conflict_env.extract_commit_sha (conflict_env.relative_to c4_mr.merge_dir "base")
    ∧ (evaluation_result conflict_env c4_mr "base").base_blob
        = conflict_env.hash_object c4_mr.base_file
    ∧ (evaluation_result conflict_env c4_mr "base").left_blob
        = conflict_env.hash_object c4_mr.left_file
    ∧ (evaluation_result conflict_env c4_mr "base").right_blob
        = conflict_env.hash_object c4_mr.right_file
    ∧ (evaluation_result conflict_env c4_mr "base").expected_blob
        = conflict_env.hash_object c4_mr.expected_file
    ∧ (evaluation_result conflict_env c4_mr "base").expected_blob_norm
        = conflict_env.hash_object (conflict_env.copy_normalized c4_mr.expected_file)
    ∧ (evaluation_result conflict_env c4_mr "base").merge_cmd = c4_mr.merge_cmd
    ∧ (evaluation_result conflict_env c4_mr "base").outcome = c4_mr.outcome
    ∧ (evaluation_result conflict_env c4_mr "base").runtime = c4_mr.runtime :=
  c4_fail_metrics conflict_env c4_mr "base" rfl

/-! ### Claim C5 -/

/-- C5 counterexample: for a `conflict` outcome the evaluator does not
extract conflict hunks at all — extraction is guarded by
`outcome == SUCCESS` — so a replayed file containing one conflict hunk
yields `num_conflicts = 0` and `conflict_size = 0` instead of the hunk count
and total size. -/
theorem c5_conflict_outcome_extracts_nothing :
    c5_mr.outcome = MergeOutcome.CONFLICT
    ∧ (extract_conflicts (conflict_env.read_lines c5_mr.merge_file)).length = 1
    ∧ (evaluation_result conflict_env c5_mr "base").num_conflicts = 0
    ∧ (evaluation_result conflict_env c5_mr "base").conflict_size = 0 := by
  refine ⟨rfl, ?_, rfl, rfl⟩
  have h := extract_conflicts_cons_conflict "<<<<<<< HEAD\n" "=======\n"
    ">>>>>>> right\n" ["x\n"] ["y\n"] [] (by decide) (by decide) (by decide)
    (by decide) (by decide)
  rw [extract_conflicts_nil] at h
  simp only [List.cons_append, List.singleton_append, List.nil_append] at h
  simp [conflict_env, c5_mr, h]

/-- C5 (amended): conflict hunks are extracted from the replayed file only
when the outcome is `success`; in that case `num_conflicts` is the hunk
count and `conflict_size` the total hunk size, where each hunk's size is the
sum of its left-side and right-side line counts.  For a `conflict` outcome
both metrics keep their initial value `0` and no extraction happens. -/
theorem c5_conflict_metrics :
    (∀ (env : EvalEnv) (merge_result : MergeResult) (base_merge_dir : String),
      merge_result.outcome = MergeOutcome.SUCCESS →
        (evaluation_result env merge_result base_merge_dir).num_conflicts
            = ((extract_conflicts (env.read_lines merge_result.merge_file)).length : ℤ)
          ∧ (evaluation_result env merge_result base_merge_dir).conflict_size
            = (((extract_conflicts (env.read_lines merge_result.merge_file)).map
                MergeConflict.num_lines).sum : ℤ))
    ∧ (∀ (env : EvalEnv) (merge_result : MergeResult) (base_merge_dir : String),
      merge_result.outcome = MergeOutcome.CONFLICT →
        (evaluation_result env merge_result base_merge_dir).num_conflicts = 0
          ∧ (evaluation_result env merge_result base_merge_dir).conflict_size = 0)
    ∧ (∀ c : MergeConflict, c.num_lines = c.left.length + c.right.length) := by
  refine ⟨fun env mr base h => ?_, fun env mr base h => ?_, fun c => rfl⟩
  · simp [evaluation_result, h, MergeOutcome.SUCCESS, MergeOutcome.FAIL]
  · simp [evaluation_result, h, MergeOutcome.CONFLICT, MergeOutcome.FAIL,
      MergeOutcome.SUCCESS]

/-- C5 witness: the amended theorem applied to a concrete successful merge
result whose replayed file holds one conflict hunk. -/
theorem c5_conflict_metrics_witness :
    (evaluation_result conflict_env c5_success_mr "base").num_conflicts
        = ((extract_conflicts (conflict_env.read_lines c5_success_mr.merge_file)).length : ℤ)
    ∧ (evaluation_result conflict_env c5_success_mr "base").conflict_size
        = (((extract_conflicts (conflict_env.read_lines c5_success_mr.merge_file)).map
            MergeConflict.num_lines).sum : ℤ) :=
  c5_conflict_metrics.1 conflict_env c5_success_mr "base" rfl

/-! ### Claim C2 -/

/-- C2 counterexample: the spec says a new runtime mean of 1.3 against a
reference mean of 1.0 passes the regression comparison, but the code flags
it: both means are below the 2.0 floor, so `_significantly_greater_than`
returns `True` and `_compare("runtime", 1.3, 1.0)` is `False`. -/
theorem c2_runtime_1_3_flagged :
    analyze_compare "runtime" (13 / 10) 1 = false := by
  simp [analyze_compare, significantly_greater_than]
  norm_num

/-- C2 (amended): for a non-zero reference mean (Python raises
`ZeroDivisionError` when the reference mean is 0 and the new mean is at
least 2, so that case is excluded), the runtime metric counts as "as good or
better" iff the two means are not both below the absolute floor of 2 time
units and the new mean is at most 1.2 times the reference mean; in
particular, when both means are below the floor the runtime is always
flagged as a regression, so both a new mean of 1.3 and a new mean of 1.5
against a reference mean of 1.0 are flagged. -/
theorem c2_runtime_tolerance :
    (∀ compare_val ref_val : ℚ, ref_val ≠ 0 →
      (analyze_compare "runtime" compare_val ref_val = true ↔
        (¬(compare_val < 2 ∧ ref_val < 2) ∧ compare_val / ref_val ≤ 12 / 10)))
    ∧ analyze_compare "runtime" (13 / 10) 1 = false
    ∧ analyze_compare "runtime" (3 / 2) 1 = false := by
  refine ⟨fun c r _ => ?_, by simp [analyze_compare, significantly_greater_than]; norm_num,
    by simp [analyze_compare, significantly_greater_than]; norm_num⟩
  simp only [analyze_compare, if_pos rfl, significantly_greater_than]
  by_cases h : c < 2 ∧ r < 2
  · simp [h]
  · simp [h, not_lt]

/-- C2 witness: the runtime tolerance rule instantiated at new mean 1.3
against the non-zero reference mean 1.0. -/
theorem c2_runtime_tolerance_witness :
    analyze_compare "runtime" (13 / 10) 1 = true ↔
      (¬((13 : ℚ) / 10 < 2 ∧ (1 : ℚ) < 2) ∧ (13 : ℚ) / 10 / 1 ≤ 12 / 10) :=
  c2_runtime_tolerance.1 (13 / 10) 1 (by norm_num)

/-! ### Claim C1 -/

/-- C1 (code bug): regression comparison is not reflexive.  For the
one-record `EvaluationSet` `X = Evaluations([c1_eval])`, whose runtime mean
is 1.0 < 2.0, `X.at_least_as_good_as(X)` returns `False`:
`_significantly_greater_than(1.0, 1.0)` takes its both-below-`min_value`
branch and returns `True`, contradicting its own docstring ("… and at least
one is larger than min_value"), so the runtime category is flagged as
deteriorated. -/
theorem c1_reflexivity_fails_on_code :
    Evaluations.at_least_as_good_as (Evaluations.init [c1_eval])
      (Evaluations.init [c1_eval]) = false := by
  simp only [Evaluations.at_least_as_good_as, numerical_attrs, List.all_cons,
    List.all_nil, Evaluations.mean_singleton]
  simp [MergeEvaluation.get_numeric_attr, c1_eval, analyze_compare,
    significantly_greater_than]

/-! ### Claim C3 -/

/-- C3 counterexample: classification is not exception-free.  When the
subprocess call times out (`proc = None`) but the merge output file exists —
e.g. the tool wrote its output before hanging, or a merge file was left over
from an earlier run — `_run_file_merge` evaluates `proc.returncode` on
`None` and raises `AttributeError` instead of returning an outcome. -/
theorem c3_classification_raises_on_timeout_with_file :
    run_file_merge 5 1 ProcEvent.timedOut true = Except.error "AttributeError" := rfl

/-- C3 (amended): provided the subprocess call completed and returned a
process object, or no merge output file exists after the call,
`_run_file_merge` returns exactly one outcome of {fail, conflict, success},
with fail iff no output file exists, conflict iff the output file exists and
the exit code is non-zero, and success iff the output file exists and the
exit code is zero.  (Without that proviso the call can raise
`AttributeError`, see the counterexample.) -/
theorem c3_classification_total :
    ∀ (timeout elapsed : ℚ) (ev : ProcEvent) (merge_is_file : Bool),
      ((∃ rc, ev = ProcEvent.completed rc) ∨ merge_is_file = false) →
      ∃ outcome runtime,
        run_file_merge timeout elapsed ev merge_is_file =
            Except.ok (outcome, runtime) ∧
          (outcome = MergeOutcome.FAIL ∨ outcome = MergeOutcome.CONFLICT ∨
            outcome = MergeOutcome.SUCCESS) ∧
          (outcome = MergeOutcome.FAIL ↔ merge_is_file = false) ∧
          (outcome = MergeOutcome.CONFLICT ↔
            merge_is_file = true ∧ ∃ rc, ev = ProcEvent.completed rc ∧ rc ≠ 0) ∧
          (outcome = MergeOutcome.SUCCESS ↔
            merge_is_file = true ∧ ev = ProcEvent.completed 0) := by
  intro timeout elapsed ev merge_is_file h
  rcases h with ⟨rc, rfl⟩ | rfl
  · cases merge_is_file with
    | false =>
      exact ⟨MergeOutcome.FAIL, elapsed, rfl, Or.inl rfl,
        by simp, by simp [MergeOutcome.FAIL, MergeOutcome.CONFLICT],
        by simp [MergeOutcome.FAIL, MergeOutcome.SUCCESS]⟩
    | true =>
      by_cases hrc : rc = 0
      · subst hrc
        refine ⟨MergeOutcome.SUCCESS, elapsed, ?_, Or.inr (Or.inr rfl),
          by simp [MergeOutcome.FAIL, MergeOutcome.SUCCESS],
          by simp [MergeOutcome.CONFLICT, MergeOutcome.SUCCESS], by simp⟩
        simp [run_file_merge]
      · refine ⟨MergeOutcome.CONFLICT, elapsed, ?_, Or.inr (Or.inl rfl),
          by simp [MergeOutcome.FAIL, MergeOutcome.CONFLICT],
          by simp [hrc],
          by simp [MergeOutcome.CONFLICT, MergeOutcome.SUCCESS, hrc]⟩
        simp [run_file_merge, hrc]
  · refine ⟨MergeOutcome.FAIL, if ev = ProcEvent.timedOut then timeout else elapsed,
      ?_, Or.inl rfl, by simp,
      by simp [MergeOutcome.FAIL, MergeOutcome.CONFLICT],
      by simp [MergeOutcome.FAIL, MergeOutcome.SUCCESS]⟩
    cases ev <;> simp [run_file_merge]

/-- C3 witness: a completed run with exit code 1 and an existing output file
is classified, and is classified as a conflict. -/
theorem c3_classification_total_witness :
    ∃ outcome runtime,
      run_file_merge 5 1 (ProcEvent.completed 1) true = Except.ok (outcome, runtime) ∧
        (outcome = MergeOutcome.FAIL ∨ outcome = MergeOutcome.CONFLICT ∨
          outcome = MergeOutcome.SUCCESS) ∧
        (outcome = MergeOutcome.FAIL ↔ (true : Bool) = false) ∧
        (outcome = MergeOutcome.CONFLICT ↔
          (true : Bool) = true ∧
            ∃ rc, ProcEvent.completed 1 = ProcEvent.completed rc ∧ rc ≠ 0) ∧
        (outcome = MergeOutcome.SUCCESS ↔
          (true : Bool) = true ∧ ProcEvent.completed 1 = ProcEvent.completed 0) :=
  c3_classification_total 5 1 (ProcEvent.completed 1) true (Or.inl ⟨1, rfl⟩)

/-! ### Claim C6 -/

/-- C6 counterexample: a timed-out replay does not always yield a `Fail`
result: when the merge output file exists after the timeout (partial output,
or a leftover file from a previous run), `_run_file_merge` raises
`AttributeError` (`proc` is `None`) and no `MergeResult` is returned at
all. -/
theorem c6_timeout_can_raise_instead_of_fail :
    run_file_merge 5 2 ProcEvent.timedOut true = Except.error "AttributeError" := rfl

/-! ### Claim C7 -/

/-- C7 counterexample: pre-existing untracked files are not restored.  The
restoration path is `git clean -xfd` followed by a forced checkout of the
saved head, which deletes every untracked file; a repository that entered
the trial merge with an untracked `junk.txt` leaves it without that file,
so the final state differs from the pre-merge state. -/
theorem c7_untracked_file_not_restored :
    (merge_no_commit c7_store "left" c7_merge_b c7_body c7_dirty_s0).2 ≠ c7_dirty_s0
    ∧ (merge_no_commit c7_store "left" c7_merge_b c7_body c7_dirty_s0).2.untracked = []
    ∧ c7_dirty_s0.untracked = [("junk.txt", "x")] := by
  refine ⟨by decide, rfl, rfl⟩

/-- C7 (amended): provided the repository is clean before the trial merge
(index and working tree equal `HEAD`'s content, no untracked files), every
exit path of `merge_no_commit` — normal completion, merge conflict
(`GitCommandError`, yielded as `success = False`), an unexpected exception
from the merge itself, or an exception raised by the caller's block —
returns the repository to exactly its pre-merge state, and any exception is
propagated (as the `Except.error` component, i.e. re-raised only after the
restoration that produced the returned state). -/
theorem c7_merge_no_commit_restores (store : GitStore) (left_sha : String)
    (merge_b : RepoState → GitMergeEvent × RepoState)
    (body : Bool → String → RepoState → Option String × RepoState)
    (s₀ : RepoState) (h : s₀ = clean_state store s₀.head) :
    (merge_no_commit store left_sha merge_b body s₀).2 = s₀
    ∧ (∀ msg s₂,
        merge_b (checkout_clean store s₀ left_sha) = (GitMergeEvent.raised msg, s₂) →
        (merge_no_commit store left_sha merge_b body s₀).1 = Except.error msg)
    ∧ (∀ output s₂ e s₃,
        merge_b (checkout_clean store s₀ left_sha) = (GitMergeEvent.ok output, s₂) →
        body true output s₂ = (some e, s₃) →
        (merge_no_commit store left_sha merge_b body s₀).1 = Except.error e)
    ∧ (∀ output s₂ s₃,
        merge_b (checkout_clean store s₀ left_sha) = (GitMergeEvent.ok output, s₂) →
        body true output s₂ = (none, s₃) →
        (merge_no_commit store left_sha merge_b body s₀).1 = Except.ok true)
    ∧ (∀ msg s₂ e s₃,
        merge_b (checkout_clean store s₀ left_sha) = (GitMergeEvent.gitCommandError msg, s₂) →
        body false msg s₂ = (some e, s₃) →
        (merge_no_commit store left_sha merge_b body s₀).1 = Except.error e)
    ∧ (∀ msg s₂ s₃,
        merge_b (checkout_clean store s₀ left_sha) = (GitMergeEvent.gitCommandError msg, s₂) →
        body false msg s₂ = (none, s₃) →
        (merge_no_commit store left_sha merge_b body s₀).1 = Except.ok false) := by
  have hrestore : ∀ s : RepoState,
      reset_merge store (checkout_clean store s s₀.head) = s₀ := by
    intro s
    rw [h]
    rfl
  refine ⟨?_, fun msg s₂ hm => ?_, fun output s₂ e s₃ hm hb => ?_,
    fun output s₂ s₃ hm hb => ?_, fun msg s₂ e s₃ hm hb => ?_,
    fun msg s₂ s₃ hm hb => ?_⟩
  · rcases hm : merge_b (checkout_clean store s₀ left_sha) with ⟨ev, s₂⟩
    cases ev with
    | raised msg => simp [merge_no_commit, hm, hrestore]
    | ok output =>
      rcases hb : body true output s₂ with ⟨exc, s₃⟩
      cases exc <;> simp [merge_no_commit, hm, hb, hrestore]
    | gitCommandError msg =>
      rcases hb : body false msg s₂ with ⟨exc, s₃⟩
      cases exc <;> simp [merge_no_commit, hm, hb, hrestore]
  · simp [merge_no_commit, hm]
  · simp [merge_no_commit, hm, hb]
  · simp [merge_no_commit, hm, hb]
  · simp [merge_no_commit, hm, hb]
  · simp [merge_no_commit, hm, hb]

/-- C7 witness: the restoration theorem applied to a concrete clean
repository, a succeeding trial merge and a normally returning block. -/
theorem c7_merge_no_commit_restores_witness :
    (merge_no_commit c7_store "left" c7_merge_b c7_body c7_clean_s0).2 = c7_clean_s0
    ∧ (∀ msg s₂,
        c7_merge_b (checkout_clean c7_store c7_clean_s0 "left") = (GitMergeEvent.raised msg, s₂) →
        (merge_no_commit c7_store "left" c7_merge_b c7_body c7_clean_s0).1 = Except.error msg)
    ∧ (∀ output s₂ e s₃,
        c7_merge_b (checkout_clean c7_store c7_clean_s0 "left") = (GitMergeEvent.ok output, s₂) →
        c7_body true output s₂ = (some e, s₃) →
        (merge_no_commit c7_store "left" c7_merge_b c7_body c7_clean_s0).1 = Except.error e)
    ∧ (∀ output s₂ s₃,
        c7_merge_b (checkout_clean c7_store c7_clean_s0 "left") = (GitMergeEvent.ok output, s₂) →
        c7_body true output s₂ = (none, s₃) →
        (merge_no_commit c7_store "left" c7_merge_b c7_body c7_clean_s0).1 = Except.ok true)
    ∧ (∀ msg s₂ e s₃,
        c7_merge_b (checkout_clean c7_store c7_clean_s0 "left") = (GitMergeEvent.gitCommandError msg, s₂) →
        c7_body false msg s₂ = (some e, s₃) →
        (merge_no_commit c7_store "left" c7_merge_b c7_body c7_clean_s0).1 = Except.error e)
    ∧ (∀ msg s₂ s₃,
        c7_merge_b (checkout_clean c7_store c7_clean_s0 "left") = (GitMergeEvent.gitCommandError msg, s₂) →
        c7_body false msg s₂ = (none, s₃) →
        (merge_no_commit c7_store "left" c7_merge_b c7_body c7_clean_s0).1 = Except.ok false) :=
  c7_merge_no_commit_restores c7_store "left" c7_merge_b c7_body c7_clean_s0 rfl

/-! ### Claim C10 -/

/-- C10: the `Evaluations` container sorts its data at construction, so
construction is invariant under permutation of the supplied records, and
`mean`, `extract`, `num_equal` (numeric and on `outcome`), `log_diffs` and
`at_least_as_good_as` are all independent of the order in which the records
were supplied; the stored sequence is sorted ascending in the dataclass
record order. -/
theorem c10_evaluations_order_independent (l₁ l₂ : List MergeEvaluation)
    (h : l₁.Perm l₂) :
    Evaluations.init l₁ = Evaluations.init l₂
    ∧ List.Sorted (· ≤ ·) (Evaluations.init l₁).data
    ∧ (∀ attr_name, (Evaluations.init l₁).mean attr_name
        = (Evaluations.init l₂).mean attr_name)
    ∧ (∀ attr_name, (Evaluations.init l₁).extract attr_name
        = (Evaluations.init l₂).extract attr_name)
    ∧ (∀ attr_name value, (Evaluations.init l₁).num_equal attr_name value
        = (Evaluations.init l₂).num_equal attr_name value)
    ∧ (∀ value, (Evaluations.init l₁).num_equal_outcome value
        = (Evaluations.init l₂).num_equal_outcome value)
    ∧ (∀ ref, (Evaluations.init l₁).log_diffs ref
        = (Evaluations.init l₂).log_diffs ref)
    ∧ (∀ ref, (Evaluations.init l₁).at_least_as_good_as ref
        = (Evaluations.init l₂).at_least_as_good_as ref) := by
  have hsorted₁ := List.sorted_insertionSort (α := MergeEvaluation) (· ≤ ·) l₁
  have hsorted₂ := List.sorted_insertionSort (α := MergeEvaluation) (· ≤ ·) l₂
  have hperm : (l₁.insertionSort (· ≤ ·)).Perm (l₂.insertionSort (· ≤ ·)) :=
    ((l₁.perm_insertionSort (· ≤ ·)).trans h).trans
      (l₂.perm_insertionSort (· ≤ ·)).symm
  have hdata : l₁.insertionSort (· ≤ ·) = l₂.insertionSort (· ≤ ·) :=
    List.eq_of_perm_of_sorted hperm hsorted₁ hsorted₂
  have he : Evaluations.init l₁ = Evaluations.init l₂ :=
    congrArg Evaluations.mk hdata
  exact ⟨he, hsorted₁, fun a => by rw [he], fun a => by rw [he],
    fun a v => by rw [he], fun v => by rw [he], fun ref => by rw [he],
    fun ref => by rw [he]⟩

/-- C10 witness: order independence at a concrete two-record collection
supplied in both orders. -/
theorem c10_evaluations_order_independent_witness :
    Evaluations.init [c10_e1, c10_e2] = Evaluations.init [c10_e2, c10_e1]
    ∧ List.Sorted (· ≤ ·) (Evaluations.init [c10_e1, c10_e2]).data
    ∧ (∀ attr_name, (Evaluations.init [c10_e1, c10_e2]).mean attr_name
        = (Evaluations.init [c10_e2, c10_e1]).mean attr_name)
    ∧ (∀ attr_name, (Evaluations.init [c10_e1, c10_e2]).extract attr_name
        = (Evaluations.init [c10_e2, c10_e1]).extract attr_name)
    ∧ (∀ attr_name value, (Evaluations.init [c10_e1, c10_e2]).num_equal attr_name value
        = (Evaluations.init [c10_e2, c10_e1]).num_equal attr_name value)
    ∧ (∀ value, (Evaluations.init [c10_e1, c10_e2]).num_equal_outcome value
        = (Evaluations.init [c10_e2, c10_e1]).num_equal_outcome value)
    ∧ (∀ ref, (Evaluations.init [c10_e1, c10_e2]).log_diffs ref
        = (Evaluations.init [c10_e2, c10_e1]).log_diffs ref)
    ∧ (∀ ref, (Evaluations.init [c10_e1, c10_e2]).at_least_as_good_as ref
        = (Evaluations.init [c10_e2, c10_e1]).at_least_as_good_as ref) :=
  c10_evaluations_order_independent [c10_e1, c10_e2] [c10_e2, c10_e1]
    (List.Perm.swap c10_e2 c10_e1 [])

/-! ### Claim C8 -/

/-- C8 counterexample: round-trip re-serialisation is not byte-identical.
For a file whose single conflict region carries the usual git marker labels
(`<<<<<<< HEAD`, `>>>>>>> right`), `pretty_print_conflict` of the extracted
hunk drops both labels and the closing marker's newline, so it differs from
the original region (here the whole file), with or without the final
newline. -/
theorem c8_round_trip_not_byte_identical :
    extract_conflicts c8_file = [c8_conflict]
    ∧ MergeConflict.pretty_print_conflict c8_conflict ≠ join_lines c8_file
    ∧ MergeConflict.pretty_print_conflict c8_conflict ++ "\n" ≠ join_lines c8_file := by
  refine ⟨?_, by decide, by decide⟩
  have h := extract_conflicts_cons_conflict "<<<<<<< HEAD\n" "=======\n"
    ">>>>>>> right\n" ["x\n"] ["y\n"] [] (by decide) (by decide) (by decide)
    (by decide) (by decide)
  rw [extract_conflicts_nil] at h
  simpa [c8_file, c8_conflict] using h

/-- C8 (amended): round-trip consistency holds only up to marker labels and
the closing marker's trailing newline: for a conflict region whose three
marker lines are the bare markers (`<<<<<<<\n`, `=======\n`, `>>>>>>>\n`,
no labels), extraction yields exactly the hunk with the region's two sides,
and `pretty_print_conflict` of that hunk followed by a newline is
byte-identical to the original region's text.  Marker labels such as
`<<<<<<< HEAD` are not preserved (see the counterexample). -/
theorem c8_round_trip_bare_markers (left right post : List String)
    (hleft : ∀ l ∈ left, py_startswith l MID_CONFLICT = false)
    (hright : ∀ l ∈ right, py_startswith l END_CONFLICT = false) :
    extract_conflicts
        ("<<<<<<<\n" :: (left ++ "=======\n" :: (right ++ ">>>>>>>\n" :: post)))
      = MergeConflict.mk left right :: extract_conflicts post
    ∧ MergeConflict.pretty_print_conflict (MergeConflict.mk left right) ++ "\n"
      = join_lines ("<<<<<<<\n" :: (left ++ "=======\n" :: (right ++ [">>>>>>>\n"]))) := by
  constructor
  · exact extract_conflicts_cons_conflict "<<<<<<<\n" "=======\n" ">>>>>>>\n"
      left right post (by decide) (by decide) (by decide) hleft hright
  · have hs : ("<<<<<<<\n" : String) = "<<<<<<<" ++ "\n" := by decide
    have hm : ("=======\n" : String) = "=======" ++ "\n" := by decide
    have he : (">>>>>>>\n" : String) = ">>>>>>>" ++ "\n" := by decide
    rw [hs, hm, he]
    simp [MergeConflict.pretty_print_conflict, START_CONFLICT, MID_CONFLICT,
      END_CONFLICT, join_lines_cons, join_lines_append, join_lines_nil,
      String.append_assoc, String.append_empty]

/-- C8 witness: the bare-marker round trip at a concrete one-line/one-line
conflict. -/
theorem c8_round_trip_bare_markers_witness :
    extract_conflicts
        ("<<<<<<<\n" :: (["a\n"] ++ "=======\n" :: (["b\n"] ++ ">>>>>>>\n" :: [])))
      = MergeConflict.mk ["a\n"] ["b\n"] :: extract_conflicts []
    ∧ MergeConflict.pretty_print_conflict (MergeConflict.mk ["a\n"] ["b\n"]) ++ "\n"
      = join_lines ("<<<<<<<\n" :: (["a\n"] ++ "=======\n" :: (["b\n"] ++ [">>>>>>>\n"]))) :=
  c8_round_trip_bare_markers ["a\n"] ["b\n"] [] (by decide) (by decide)

/-! ### Claim C9 -/

/-- C9 counterexample: directory naming is *not* collision-free for two file
merges of the same merge scenario whose expected files share a basename: the
directory is `<base>/<merge commit sha>/<basename>`, so the second
`mkdir` call raises `FileExistsError` and `create_merge_dirs` aborts. -/
theorem c9_same_basename_collides :
    c9_fm1 ≠ c9_fm2
    ∧ merge_dir_path "out" c9_fm1 = merge_dir_path "out" c9_fm2
    ∧ create_merge_dirs "out" [c9_fm1, c9_fm2] = Except.error () := by
  refine ⟨by decide, by decide, ?_⟩
  rfl

/-- C9 (amended): each file merge's directory is
`<base>/<merge commit sha>/<expected basename>`; whenever these paths are
pairwise distinct (which fails exactly when two file merges share both the
merge commit and the expected file's basename, raising `FileExistsError`),
`create_merge_dirs` returns one directory per file merge, in order, and
writes into each the four files `Expected.java`, `Left.java`, `Right.java`
and `Base.java` with the raw blob bytes verbatim, an absent base blob being
replaced by an explicit empty `Base.java` (with a logged warning). -/
theorem c9_create_merge_dirs_unique (merge_dir_base : String)
    (file_merges : List FileMerge)
    (h : (file_merges.map (merge_dir_path merge_dir_base)).Nodup) :
    create_merge_dirs merge_dir_base file_merges
      = Except.ok (file_merges.map (merge_dir_path merge_dir_base),
          file_merges.flatMap (merge_dir_files merge_dir_base)) :=
  create_merge_dirs_from_ok merge_dir_base file_merges []
    (fun _ _ => List.not_mem_nil _) h

/-- C9 witness: two file merges of the same scenario with distinct
basenames (the second without a base blob) produce two directories and
eight file writes. -/
theorem c9_create_merge_dirs_unique_witness :
    create_merge_dirs "out" [c9_fm1, c9_fm3]
      = Except.ok ([c9_fm1, c9_fm3].map (merge_dir_path "out"),
          [c9_fm1, c9_fm3].flatMap (merge_dir_files "out")) :=
  c9_create_merge_dirs_unique "out" [c9_fm1, c9_fm3] (by decide)

/-- C6 (amended): for every timed-out file-merge replay after which no merge
output file exists, the returned outcome is `Fail` and the recorded runtime
is exactly the timeout value — in particular `runtime = 5.0` for a 5-second
timeout. -/
theorem c6_timeout_yields_fail_with_timeout_runtime :
    (∀ (timeout elapsed : ℚ),
      run_file_merge timeout elapsed ProcEvent.timedOut false =
        Except.ok (MergeOutcome.FAIL, timeout))
    ∧ run_file_merge 5 7 ProcEvent.timedOut false =
        Except.ok (MergeOutcome.FAIL, 5) :=
  ⟨fun _ _ => rfl, rfl⟩
